import Mathlib

/-!
Verification of the LocalStackExample task-management application.

The development shallowly embeds the TypeScript sources:
`src/utils/aws-clients.ts` (environment resolution and client configuration),
`src/utils/response.ts` (response envelopes), `src/services/task-service.ts`,
`src/services/file-service.ts`, and the HTTP handlers in
`src/handlers/api.ts`, `src/handlers/tasks.ts` and `src/handlers/files.ts`.
Environment variables are `Option String`; JavaScript truthiness of an
environment variable is explicit.  Asynchronous effects on DynamoDB and SQS
are modelled by explicit state passing on a `World`, and fallibility of the
awaited collaborator calls by a `Faults` record; an uncaught rejection is the
`OpResult.failed` constructor, which carries the state the store had when the
exception propagated.
-/

namespace LocalStackExample

/-- JavaScript truthiness of an optional environment variable: the
variable is set and non-empty (`if (process.env.X)`). -/
def truthy : Option String → Bool
  | none => false
  | some s => !s.isEmpty

/-- The JavaScript idiom `process.env.X || defaultValue`. -/
def orDefault (o : Option String) (d : String) : String :=
  match o with
  | some s => if s.isEmpty then d else s
  | none => d

/-- Embedding of `getStage` from `src/utils/aws-clients.ts`: `STAGE` wins
when truthy; otherwise `NODE_ENV` is mapped (`local`/`development`/
`staging`/`production`); otherwise the default is `dev`. -/
def getStage (stageVar nodeEnv : Option String) : String :=
  if truthy stageVar then
    stageVar.getD ""
  else if truthy nodeEnv then
    let e := nodeEnv.getD ""
    if e = "local" || e = "development" then
      (if e = "local" then "local" else "dev")
    else if e = "staging" then "staging"
    else if e = "production" then "prod"
    else "dev"
  else "dev"

/-- The process environment variables read by `src/utils/aws-clients.ts`,
`src/services/file-service.ts` and the handlers. -/
structure Env where
  STAGE : Option String := none
  NODE_ENV : Option String := none
  AWS_LAMBDA_FUNCTION_NAME : Option String := none
  LOCALSTACK_HOSTNAME : Option String := none
  IS_PRODUCTION : Option String := none
  AWS_REGION : Option String := none
  AWS_ACCOUNT_ID : Option String := none
  UNIQUE_SUFFIX : Option String := none
  TASKS_TABLE : Option String := none
  FILES_BUCKET : Option String := none
  TASKS_QUEUE_URL : Option String := none
  MY_AWS_ACCOUNT_ID : Option String := none
  MY_AWS_REGION : Option String := none
  TASKS_QUEUE : Option String := none
deriving DecidableEq

/-- Module-level `const stage = getStage()`. -/
def stage (env : Env) : String := getStage env.STAGE env.NODE_ENV

/-- Module-level `const isLambda = !!process.env.AWS_LAMBDA_FUNCTION_NAME`. -/
def isLambda (env : Env) : Bool := truthy env.AWS_LAMBDA_FUNCTION_NAME

/-- Module-level `const isLocalStack = !!process.env.LOCALSTACK_HOSTNAME`. -/
def isLocalStack (env : Env) : Bool := truthy env.LOCALSTACK_HOSTNAME

/-- Module-level `const isLocalEnv = stage === 'local' || stage === 'dev'`. -/
def isLocalEnv (env : Env) : Bool := stage env = "local" || stage env = "dev"

/-- Module-level `const region = process.env.AWS_REGION || 'ap-northeast-1'`. -/
def region (env : Env) : String := orDefault env.AWS_REGION "ap-northeast-1"

/-- Module-level `const accountId = process.env.AWS_ACCOUNT_ID || '000000000000'`. -/
def accountId (env : Env) : String := orDefault env.AWS_ACCOUNT_ID "000000000000"

/-- Module-level `const uniqueSuffix = process.env.UNIQUE_SUFFIX || 'xyz123'`. -/
def uniqueSuffix (env : Env) : String := orDefault env.UNIQUE_SUFFIX "xyz123"

/-- Static AWS credentials as configured on a client. -/
structure Credentials where
  accessKeyId : String
  secretAccessKey : String
deriving DecidableEq

/-- The `ExtendedAWSConfig` shape returned by `getAwsConfig`: a region,
an optional endpoint override, optional static credentials. -/
structure ExtendedAWSConfig where
  region : String
  endpoint : Option String := none
  credentials : Option Credentials := none
deriving DecidableEq

/-- Embedding of `getAwsConfig(forceLocalStack, forceProduction)` from
`src/utils/aws-clients.ts`. -/
def getAwsConfig (env : Env) (forceLocalStack forceProduction : Bool) :
    ExtendedAWSConfig :=
  if forceProduction || env.IS_PRODUCTION == some "true" then
    { region := region env }
  else if !isLocalStack env && !isLocalEnv env && !forceLocalStack then
    { region := region env }
  else
    let endpoint :=
      if truthy env.LOCALSTACK_HOSTNAME then
        "http://" ++ env.LOCALSTACK_HOSTNAME.getD "" ++ ":4566"
      else "http://localhost:4566"
    { region := region env
      endpoint := some endpoint
      credentials := some { accessKeyId := "test", secretAccessKey := "test" } }

/-- Configuration of the DynamoDB DocumentClient: `getAwsConfig()`. -/
def dynamoDbConfig (env : Env) : ExtendedAWSConfig := getAwsConfig env false false

/-- Configuration of the S3 client: `getAwsConfig()`. -/
def s3Config (env : Env) : ExtendedAWSConfig := getAwsConfig env false false

/-- Configuration of the SQS client: `getAwsConfig(false, true)`. -/
def sqsConfig (env : Env) : ExtendedAWSConfig := getAwsConfig env false true

/-- Exported constant `TASKS_TABLE`. -/
def TASKS_TABLE (env : Env) : String :=
  orDefault env.TASKS_TABLE ("tasks-table-" ++ stage env)

/-- Exported constant `FILES_BUCKET` (suffixed form). -/
def FILES_BUCKET (env : Env) : String :=
  orDefault env.FILES_BUCKET
    ("files-bucket-" ++ stage env ++ "-" ++ uniqueSuffix env)

/-- Exported constant `TASKS_QUEUE`: the full queue URL, with the explicit
`TASKS_QUEUE_URL` override first, then the production forms, then the
LocalStack form. -/
def TASKS_QUEUE (env : Env) : String :=
  if truthy env.TASKS_QUEUE_URL then
    env.TASKS_QUEUE_URL.getD ""
  else if env.IS_PRODUCTION == some "true" || truthy env.MY_AWS_ACCOUNT_ID then
    let awsAccountId := orDefault env.MY_AWS_ACCOUNT_ID (accountId env)
    let awsRegion := orDefault env.MY_AWS_REGION (region env)
    let queueName := orDefault env.TASKS_QUEUE ("tasks-queue-" ++ stage env)
    "https://sqs." ++ awsRegion ++ ".amazonaws.com/" ++ awsAccountId ++ "/" ++ queueName
  else if isLambda env && !isLocalStack env then
    let queueName := orDefault env.TASKS_QUEUE ("tasks-queue-" ++ stage env)
    "https://sqs." ++ region env ++ ".amazonaws.com/" ++ accountId env ++ "/" ++ queueName
  else
    let queueName := orDefault env.TASKS_QUEUE ("tasks-queue-" ++ stage env)
    let host :=
      if isLocalStack env && truthy env.LOCALSTACK_HOSTNAME then
        env.LOCALSTACK_HOSTNAME.getD ""
      else "localhost"
    "http://" ++ host ++ ":4566/000000000000/" ++ queueName

/-! JSON values and `JSON.stringify`, as used by the response envelope. -/

/-- A JSON value, as produced by the handlers and consumed by
`JSON.stringify` in `src/utils/response.ts`. -/
inductive Json where
  | null : Json
  | bool (b : Bool) : Json
  | num (n : Nat) : Json
  | str (s : String) : Json
  | arr (xs : List Json) : Json
  | obj (fields : List (String × Json)) : Json

mutual

/-- Serialization of a JSON value (model of `JSON.stringify`). -/
def Json.stringify : Json → String
  | .null => "null"
  | .bool b => if b then "true" else "false"
  | .num n => Nat.repr n
  | .str s => "\"" ++ s ++ "\""
  | .arr xs => "[" ++ Json.stringifyArr xs ++ "]"
  | .obj fs => "\x7b" ++ Json.stringifyObj fs ++ "\x7d"

/-- Comma-separated serialization of the elements of a JSON array. -/
def Json.stringifyArr : List Json → String
  | [] => ""
  | [x] => Json.stringify x
  | x :: y :: xs => Json.stringify x ++ "," ++ Json.stringifyArr (y :: xs)

/-- Comma-separated serialization of the fields of a JSON object. -/
def Json.stringifyObj : List (String × Json) → String
  | [] => ""
  | [(k, v)] => "\"" ++ k ++ "\":" ++ Json.stringify v
  | (k, v) :: f :: fs =>
      "\"" ++ k ++ "\":" ++ Json.stringify v ++ "," ++ Json.stringifyObj (f :: fs)

end

/-- The `ApiResponse` envelope from `src/types/index.ts`: a status code, a
serialized body and the response headers. -/
structure ApiResponse where
  statusCode : Nat
  body : String
  headers : List (String × String)
deriving DecidableEq

/-- Embedding of `successResponse(data, statusCode)` from
`src/utils/response.ts`. -/
def successResponse (data : Json) (statusCode : Nat) : ApiResponse :=
  { statusCode := statusCode
    body := data.stringify
    headers := [("Content-Type", "application/json"),
                ("Access-Control-Allow-Origin", "*"),
                ("Access-Control-Allow-Credentials", "true")] }

/-- Embedding of `errorResponse(message, statusCode)` from
`src/utils/response.ts`. -/
def errorResponse (message : String) (statusCode : Nat) : ApiResponse :=
  { statusCode := statusCode
    body := (Json.obj [("message", Json.str message)]).stringify
    headers := [("Content-Type", "application/json"),
                ("Access-Control-Allow-Origin", "*"),
                ("Access-Control-Allow-Credentials", "true")] }

/-! The DynamoDB table, the SQS queue, and the fault model for awaited
collaborator calls. -/

/-- A DynamoDB item of the tasks table, restricted to the attributes the
application reads or writes.  Task items use the first six attributes;
file-metadata items carry the `type` tag and the file attributes.  The key
attribute `id` is part of the item, as in DynamoDB. -/
structure Item where
  id : String
  title : Option String := none
  description : Option String := none
  status : Option String := none
  createdAt : Option String := none
  updatedAt : Option String := none
  type : Option String := none
  filename : Option String := none
  contentType : Option String := none
  size : Option Nat := none
  uploadedAt : Option String := none
  url : Option String := none
deriving DecidableEq

/-- The tasks table: a collection of items keyed by their `id` attribute. -/
abbrev Table := List Item

/-- DynamoDB `get` on the tasks table. -/
def Table.get (t : Table) (id : String) : Option Item :=
  t.find? (fun it => it.id = id)

/-- DynamoDB `put`: replaces any item with the same key. -/
def Table.put (t : Table) (it : Item) : Table :=
  it :: t.filter (fun x => x.id ≠ it.id)

/-- DynamoDB `delete`. -/
def Table.del (t : Table) (id : String) : Table :=
  t.filter (fun x => x.id ≠ id)

/-- The `TaskMessage` event envelope sent to SQS on every task mutation. -/
structure TaskMessage where
  taskId : String
  action : String
  timestamp : String
deriving DecidableEq

/-- The external state touched by the services: the tasks table and the
sequence of messages successfully sent to the tasks queue. -/
structure World where
  table : Table := []
  queue : List TaskMessage := []
deriving DecidableEq

/-- Fallibility of the awaited collaborator calls inside one service
operation: whether the DynamoDB write resolves, and whether the SQS
`sendMessage` resolves. -/
structure Faults where
  storeOk : Bool := true
  sendOk : Bool := true
deriving DecidableEq

/-- Outcome of an `async` service operation: either a value, or an uncaught
rejection that propagates to the caller.  Both carry the external state at
that point, since effects performed before the rejection persist. -/
inductive OpResult (α : Type) where
  | ok (w : World) (v : α) : OpResult α
  | failed (w : World) : OpResult α
deriving DecidableEq

/-- The external state carried by an operation outcome. -/
def OpResult.world {α : Type} : OpResult α → World
  | .ok w _ => w
  | .failed w => w

/-- Modelled from the spec: `uuidv4` (external `uuid` library, not part of
the sources) returns an identifier unique across repeated calls; modelled
as an injective function of a per-process call counter. -/
def uuidv4 (n : Nat) : String :=
  "uuid-" ++ String.mk (List.replicate n 'x')

/-! The `TaskService` class from `src/services/task-service.ts`.  The
timestamps taken by `new Date().toISOString()` are oracle parameters:
`ts` for the record timestamp and `mts` for the message timestamp. -/

/-- Private `sendTaskMessage(taskId, action)`: sends one `TaskMessage` to
the tasks queue; a send failure is an uncaught rejection. -/
def sendTaskMessage (f : Faults) (w : World) (taskId action mts : String) :
    OpResult Unit :=
  if f.sendOk then
    .ok { w with queue := w.queue ++ [{ taskId := taskId, action := action, timestamp := mts }] } ()
  else .failed w

/-- Embedding of `TaskService.createTask(title, description)`: builds the
task with a fresh id, status `TODO` and `createdAt`, puts it, then sends a
`CREATE` message. -/
def createTask (f : Faults) (w : World) (seed : Nat) (title : String)
    (description : Option String) (ts mts : String) : OpResult Item :=
  let task : Item :=
    { id := uuidv4 seed
      title := some title
      description := description
      status := some "TODO"
      createdAt := some ts }
  if f.storeOk then
    let w1 : World := { w with table := w.table.put task }
    match sendTaskMessage f w1 task.id "CREATE" mts with
    | .ok w2 _ => .ok w2 task
    | .failed w2 => .failed w2
  else .failed w

/-- Embedding of `TaskService.getTaskById(id)`: returns the stored item as
a `Task`, or null. -/
def getTaskById (w : World) (id : String) : Option Item :=
  w.table.get id

/-- The update payload accepted by `updateTask` (a parsed JSON body of
optional Task fields). -/
structure TaskUpdates where
  id : Option String := none
  title : Option String := none
  description : Option String := none
  status : Option String := none
  createdAt : Option String := none
deriving DecidableEq

/-- The effect on a stored item of the DynamoDB `SET` expression built by
`updateTask`: every payload field except `id` and `createdAt` is assigned,
and `updatedAt` is assigned the fresh timestamp last. -/
def applyUpdates (it : Item) (u : TaskUpdates) (ts : String) : Item :=
  { it with
    title := match u.title with | some v => some v | none => it.title
    description := match u.description with | some v => some v | none => it.description
    status := match u.status with | some v => some v | none => it.status
    updatedAt := some ts }

/-- DynamoDB `update` on key `id` with the `SET` expression of
`updateTask`: updates the stored item, or upserts a fresh one holding only
the key and the assigned attributes. -/
def dynamoUpdate (t : Table) (id : String) (u : TaskUpdates) (ts : String) :
    Table :=
  match t.get id with
  | some it => t.put (applyUpdates it u ts)
  | none => t.put (applyUpdates { id := id } u ts)

/-- Embedding of `TaskService.updateTask(id, updates)`: null when the id is
absent; otherwise update (stripping `id`/`createdAt`, setting `updatedAt`),
send an `UPDATE` message, and re-read the now-current record. -/
def updateTask (f : Faults) (w : World) (id : String) (u : TaskUpdates)
    (ts mts : String) : OpResult (Option Item) :=
  match getTaskById w id with
  | none => .ok w none
  | some _ =>
    if f.storeOk then
      let w1 : World := { w with table := dynamoUpdate w.table id u ts }
      match sendTaskMessage f w1 id "UPDATE" mts with
      | .ok w2 _ => .ok w2 (getTaskById w2 id)
      | .failed w2 => .failed w2
    else .failed w

/-- Embedding of `TaskService.deleteTask(id)`: false when the id is absent;
otherwise delete, send a `DELETE` message, and return true. -/
def deleteTask (f : Faults) (w : World) (id : String) (mts : String) :
    OpResult Bool :=
  match getTaskById w id with
  | none => .ok w false
  | some _ =>
    if f.storeOk then
      let w1 : World := { w with table := w.table.del id }
      match sendTaskMessage f w1 id "DELETE" mts with
      | .ok w2 _ => .ok w2 true
      | .failed w2 => .failed w2
    else .failed w

/-! The `FileService` class from `src/services/file-service.ts`. -/

/-- The `FileMetadata` record from `src/types/index.ts`. -/
structure FileMetadata where
  id : String
  filename : String
  contentType : String
  size : Nat
  uploadedAt : String
  url : String
deriving DecidableEq

/-- Modelled from the spec: `getSignedUrl` (AWS SDK collaborator, wrapped in
`src/utils/aws-clients.ts`) returns a time-limited signed URL for the given
operation, bucket, key and expiry. -/
def getSignedUrl (operation bucket key : String) (expires : Nat) : String :=
  operation ++ ":" ++ bucket ++ "/" ++ key ++ "?expires=" ++ Nat.repr expires

/-- Embedding of `FileService.generateUploadUrl(filename, contentType)`:
mints a fresh id, builds the key `fileId/filename`, and returns a 5-minute
`putObject` signed URL together with the id. -/
def generateUploadUrl (env : Env) (seed : Nat) (filename : String) :
    String × String :=
  let fileId := uuidv4 seed
  let key := fileId ++ "/" ++ filename
  (getSignedUrl "putObject" (FILES_BUCKET env) key 300, fileId)

/-- Embedding of `FileService.saveFileMetadata(fileId, filename,
contentType, size)`: persists (in the tasks table, tagged `type: FILE`) and
returns a metadata record whose `url` is the LocalStack form when the
`STAGE` environment variable is exactly `local`, and the public S3 form
otherwise. -/
def saveFileMetadata (env : Env) (w : World) (fileId filename contentType : String)
    (size : Nat) (ts : String) : World × FileMetadata :=
  let fileUrl :=
    "https://" ++ FILES_BUCKET env ++ ".s3.amazonaws.com/" ++ fileId ++ "/" ++ filename
  let localstackUrl :=
    "http://localhost:4566/" ++ FILES_BUCKET env ++ "/" ++ fileId ++ "/" ++ filename
  let fileMetadata : FileMetadata :=
    { id := fileId
      filename := filename
      contentType := contentType
      size := size
      uploadedAt := ts
      url := if env.STAGE == some "local" then localstackUrl else fileUrl }
  let item : Item :=
    { id := fileId
      type := some "FILE"
      filename := some filename
      contentType := some contentType
      size := some size
      uploadedAt := some ts
      url := some fileMetadata.url }
  ({ w with table := w.table.put item }, fileMetadata)

/-- Embedding of `FileService.getFileMetadata(fileId)`: returns the stored
record only when it carries the `type: FILE` tag, and null otherwise. -/
def getFileMetadata (w : World) (fileId : String) : Option FileMetadata :=
  match w.table.get fileId with
  | some it =>
    if it.type == some "FILE" then
      some { id := it.id
             filename := it.filename.getD ""
             contentType := it.contentType.getD ""
             size := it.size.getD 0
             uploadedAt := it.uploadedAt.getD ""
             url := it.url.getD "" }
    else none
  | none => none

/-- Embedding of `FileService.getFileUrl(fileId, filename)`: a 1-hour
`getObject` signed URL, computed on demand. -/
def getFileUrl (env : Env) (fileId filename : String) : String :=
  getSignedUrl "getObject" (FILES_BUCKET env) (fileId ++ "/" ++ filename) 3600

/-- Embedding of `FileService.deleteFile(fileId, filename)`: deletes the
object then the metadata row, catching any failure and returning false.
The object-store contents are not modelled; a rejection of either awaited
delete is modelled by the store fault flag, in which case the metadata row
survives. -/
def deleteFile (f : Faults) (w : World) (fileId : String) : World × Bool :=
  if f.storeOk then ({ w with table := w.table.del fileId }, true)
  else (w, false)

/-! The HTTP handlers.  Each handler is embedded after the JSON parse of
the event: the body and path parameters arrive as optional structured
values, and `JSON.stringify` of a returned record is the serialization of
its present attributes in declaration order. -/

/-- Serialization of an optional string attribute: absent attributes are
skipped by `JSON.stringify`. -/
def optStrField (k : String) (v : Option String) : List (String × Json) :=
  match v with
  | some s => [(k, Json.str s)]
  | none => []

/-- The JSON value `JSON.stringify` sees for a stored item returned by the
task handlers. -/
def itemToJson (t : Item) : Json :=
  Json.obj ([("id", Json.str t.id)]
    ++ optStrField "title" t.title
    ++ optStrField "description" t.description
    ++ optStrField "status" t.status
    ++ optStrField "createdAt" t.createdAt
    ++ optStrField "updatedAt" t.updatedAt
    ++ optStrField "type" t.type
    ++ optStrField "filename" t.filename
    ++ optStrField "contentType" t.contentType
    ++ (match t.size with | some n => [("size", Json.num n)] | none => [])
    ++ optStrField "uploadedAt" t.uploadedAt
    ++ optStrField "url" t.url)

/-- The parsed body of `POST /tasks`. -/
structure CreateBody where
  title : Option String := none
  description : Option String := none
deriving DecidableEq

namespace Tasks

/-- Embedding of the `create` handler (`POST /tasks`): 400 without a body
or a truthy title, 201 on success, 500 when the service rejects. -/
def create (f : Faults) (w : World) (seed : Nat) (body : Option CreateBody)
    (ts mts : String) : ApiResponse × World :=
  match body with
  | none => (errorResponse "リクエストボディがありません" 400, w)
  | some b =>
    if truthy b.title then
      match createTask f w seed (b.title.getD "") b.description ts mts with
      | .ok w2 task => (successResponse (itemToJson task) 201, w2)
      | .failed w2 => (errorResponse "タスク作成中にエラーが発生しました" 500, w2)
    else (errorResponse "タイトルは必須です" 400, w)

/-- Embedding of the `get` handler (`GET /tasks/id`): 400 without an id,
404 when absent, 200 with the record otherwise. -/
def get (w : World) (taskId : Option String) : ApiResponse :=
  if truthy taskId then
    match getTaskById w (taskId.getD "") with
    | none => errorResponse "タスクが見つかりません" 404
    | some task => successResponse (itemToJson task) 200
  else errorResponse "タスクIDが指定されていません" 400

/-- Embedding of the `list` handler (`GET /tasks`): 200 with the scanned
items. -/
def list (w : World) : ApiResponse :=
  successResponse (Json.arr (w.table.map itemToJson)) 200

/-- Embedding of the `update` handler (`PUT /tasks/id`): 400 without an id
or body, strips `id`/`createdAt` from the payload, 404 when absent, 200 on
success, 500 when the service rejects. -/
def update (f : Faults) (w : World) (taskId : Option String)
    (body : Option TaskUpdates) (ts mts : String) : ApiResponse × World :=
  if truthy taskId then
    match body with
    | none => (errorResponse "リクエストボディがありません" 400, w)
    | some u =>
      let u2 : TaskUpdates := { u with id := none, createdAt := none }
      match updateTask f w (taskId.getD "") u2 ts mts with
      | .ok w2 none => (errorResponse "タスクが見つかりません" 404, w2)
      | .ok w2 (some task) => (successResponse (itemToJson task) 200, w2)
      | .failed w2 => (errorResponse "タスク更新中にエラーが発生しました" 500, w2)
  else (errorResponse "タスクIDが指定されていません" 400, w)

/-- Embedding of the `remove` handler (`DELETE /tasks/id`): 400 without an
id, 404 when absent, 200 on success, 500 when the service rejects. -/
def remove (f : Faults) (w : World) (taskId : Option String) (mts : String) :
    ApiResponse × World :=
  if truthy taskId then
    match deleteTask f w (taskId.getD "") mts with
    | .ok w2 false => (errorResponse "タスクが見つかりません" 404, w2)
    | .ok w2 true =>
        (successResponse (Json.obj [("message", Json.str "タスクが削除されました")]) 200, w2)
    | .failed w2 => (errorResponse "タスク削除中にエラーが発生しました" 500, w2)
  else (errorResponse "タスクIDが指定されていません" 400, w)

end Tasks

/-- The parsed body of `POST /files`. -/
structure UploadBody where
  filename : Option String := none
  contentType : Option String := none
  size : Option Nat := none
deriving DecidableEq

/-- Truthiness of the optional numeric `size` field (`if (size)`). -/
def sizeTruthy : Option Nat → Bool
  | none => false
  | some n => n ≠ 0

/-- The JSON value returned by the file `get` handler: the metadata record
spread together with a fresh download URL. -/
def fileMetadataToJson (m : FileMetadata) (downloadUrl : String) : Json :=
  Json.obj [("id", Json.str m.id), ("filename", Json.str m.filename),
            ("contentType", Json.str m.contentType), ("size", Json.num m.size),
            ("uploadedAt", Json.str m.uploadedAt), ("url", Json.str m.url),
            ("downloadUrl", Json.str downloadUrl)]

namespace Files

/-- Embedding of the `upload` handler (`POST /files`): 400 without a body
or without truthy `filename`/`contentType`; issues the signed URL, saves
metadata when `size` is truthy, and returns 200. -/
def upload (env : Env) (w : World) (seed : Nat) (body : Option UploadBody)
    (ts : String) : ApiResponse × World :=
  match body with
  | none => (errorResponse "リクエストボディがありません" 400, w)
  | some b =>
    if truthy b.filename && truthy b.contentType then
      let r := generateUploadUrl env seed (b.filename.getD "")
      let w2 :=
        if sizeTruthy b.size then
          (saveFileMetadata env w r.2 (b.filename.getD "") (b.contentType.getD "")
            (b.size.getD 0) ts).1
        else w
      (successResponse (Json.obj [("uploadUrl", Json.str r.1),
        ("fileId", Json.str r.2), ("expires", Json.num 300)]) 200, w2)
    else (errorResponse "filename と contentType は必須です" 400, w)

/-- Embedding of the file `get` handler (`GET /files/id`): 400 without an
id, 404 when the metadata is absent or not a file, 200 with the metadata
and a download URL. -/
def get (env : Env) (w : World) (fileId : Option String) : ApiResponse :=
  if truthy fileId then
    match getFileMetadata w (fileId.getD "") with
    | none => errorResponse "ファイルが見つかりません" 404
    | some md =>
        successResponse
          (fileMetadataToJson md (getFileUrl env (fileId.getD "") md.filename)) 200
  else errorResponse "ファイルIDが指定されていません" 400

/-- Embedding of the file `remove` handler (`DELETE /files/id`): 400
without an id, 404 when absent, 500 when the delete fails, 200 on
success. -/
def remove (f : Faults) (w : World) (fileId : Option String) :
    ApiResponse × World :=
  if truthy fileId then
    match getFileMetadata w (fileId.getD "") with
    | none => (errorResponse "ファイルが見つかりません" 404, w)
    | some _ =>
      let r := deleteFile f w (fileId.getD "")
      if r.2 then
        (successResponse (Json.obj [("message", Json.str "ファイルが削除されました")]) 200, r.1)
      else (errorResponse "ファイルの削除に失敗しました" 500, r.1)
  else (errorResponse "ファイルIDが指定されていません" 400, w)

end Files

namespace Api

/-- Embedding of the service-check `handler` (`ANY /api`): 200 with the
per-service report (the collaborator probes are abstracted into the
`services` value and the `ok` flag of the try/catch), 500 on an uncaught
failure. -/
def handler (env : Env) (services : Json) (ok : Bool)
    (time requestId path method : String) : ApiResponse :=
  if ok then
    successResponse (Json.obj
      [("message", Json.str "LocalStack AWS サービスAPI"),
       ("stage", Json.str (orDefault env.STAGE "dev")),
       ("time", Json.str time), ("requestId", Json.str requestId),
       ("path", Json.str path), ("method", Json.str method),
       ("services", services)]) 200
  else errorResponse "API処理中にエラーが発生しました" 500

end Api

/-- The fixed envelope contract of every handler result: JSON content type,
permissive cross-origin header, a status code in the fixed set, and a body
that is the serialization of a JSON value. -/
def isEnvelope (r : ApiResponse) : Prop :=
  ("Content-Type", "application/json") ∈ r.headers ∧
  ("Access-Control-Allow-Origin", "*") ∈ r.headers ∧
  (r.statusCode = 200 ∨ r.statusCode = 201 ∨ r.statusCode = 400 ∨
    r.statusCode = 404 ∨ r.statusCode = 500) ∧
  ∃ j : Json, r.body = Json.stringify j

/-! Lemmas about the table model. -/

/-- An item found under a key carries that key as its `id` attribute. -/
theorem Table.get_id {t : Table} {id : String} {it : Item}
    (h : t.get id = some it) : it.id = id := by
  unfold Table.get at h
  have h2 := List.find?_some h
  simpa using h2

/-- Reading back a put item under its own key returns it. -/
theorem Table.get_put (t : Table) (it : Item) :
    (t.put it).get it.id = some it := by
  simp [Table.get, Table.put, List.find?_cons]

/-- After a delete, the key is gone. -/
theorem Table.get_del (t : Table) (id : String) :
    (t.del id).get id = none := by
  unfold Table.get Table.del
  induction t with
  | nil => rfl
  | cons a t ih =>
    simp only [List.filter_cons]
    by_cases h : a.id = id
    · simp [h, ih]
    · simp [h, List.find?_cons, ih]

/-! The claims. -/

/-- A set, non-empty environment variable is truthy. -/
theorem truthy_some {s : String} (h : s ≠ "") : truthy (some s) = true := by
  have h2 : s.isEmpty = false := by
    cases hb : s.isEmpty
    · rfl
    · exact absurd ((String.isEmpty_iff s).mp hb) h
  simp [truthy, h2]

/-- C6: stage resolution is deterministic with precedence STAGE override
first, then the NODE_ENV mapping local→local, development→dev,
staging→staging, production→prod, and otherwise (unrecognized NODE_ENV
value or nothing set) the default `dev`. -/
theorem getStage_resolution :
    (∀ (s : String) (nodeEnv : Option String), s ≠ "" →
      getStage (some s) nodeEnv = s) ∧
    (∀ st : Option String, truthy st = false →
      getStage st (some "local") = "local" ∧
      getStage st (some "development") = "dev" ∧
      getStage st (some "staging") = "staging" ∧
      getStage st (some "production") = "prod") ∧
    (∀ (st : Option String) (e : String), truthy st = false →
      e ≠ "local" → e ≠ "development" → e ≠ "staging" → e ≠ "production" →
      getStage st (some e) = "dev") ∧
    (∀ st : Option String, truthy st = false → getStage st none = "dev") := by
  refine ⟨?_, ?_, ?_, ?_⟩
  · intro s nodeEnv hs
    have ht := truthy_some hs
    unfold getStage
    rw [ht]
    simp
  · intro st h
    refine ⟨?_, ?_, ?_, ?_⟩ <;>
      (unfold getStage; rw [h, if_neg (by decide : ¬ false = true)]; decide)
  · intro st e h h1 h2 h3 h4
    by_cases he : e = ""
    · subst he
      unfold getStage
      rw [h, if_neg (by decide : ¬ false = true)]
      decide
    · have ht := truthy_some he
      unfold getStage
      rw [h, ht]
      simp [h1, h2, h3, h4]
  · intro st h
    unfold getStage
    rw [h, if_neg (by decide : ¬ false = true)]
    decide

/-- Closed instantiations of C6 discharging its hypotheses. -/
theorem getStage_resolution_witness :
    getStage (some "prod") (some "local") = "prod" ∧
    getStage none (some "production") = "prod" ∧
    getStage none (some "test") = "dev" ∧
    getStage none none = "dev" := by
  refine ⟨getStage_resolution.1 "prod" (some "local") (by decide),
    (getStage_resolution.2.1 none (by decide)).2.2.2,
    getStage_resolution.2.2.1 none "test" (by decide) (by decide) (by decide)
      (by decide) (by decide),
    getStage_resolution.2.2.2 none (by decide)⟩

/-- C10: the SQS client is always built from the force-production
configuration (region only, no endpoint, no credentials) for every
environment, while the DynamoDB and S3 clients do receive the LocalStack
endpoint and placeholder credentials in an emulated environment; the
LocalStack queue URL is still produced independently of the client
configuration. -/
theorem sqsConfig_force_production :
    (∀ env : Env, sqsConfig env =
      { region := region env, endpoint := none, credentials := none }) ∧
    (∀ env : Env, env.IS_PRODUCTION ≠ some "true" →
      truthy env.LOCALSTACK_HOSTNAME = true →
      (dynamoDbConfig env).endpoint.isSome = true ∧
      (dynamoDbConfig env).credentials.isSome = true ∧
      (s3Config env).endpoint.isSome = true ∧
      (s3Config env).credentials.isSome = true) ∧
    (TASKS_QUEUE { LOCALSTACK_HOSTNAME := some "localstack" } =
      "http://localstack:4566/000000000000/tasks-queue-dev" ∧
     sqsConfig { LOCALSTACK_HOSTNAME := some "localstack" } =
      { region := "ap-northeast-1", endpoint := none, credentials := none }) := by
  refine ⟨?_, ?_, by decide, by decide⟩
  · intro env
    simp [sqsConfig, getAwsConfig]
  · intro env hprod hls
    have hbeq : (env.IS_PRODUCTION == some "true") = false := by
      simpa using hprod
    have hlsb : isLocalStack env = true := hls
    simp [dynamoDbConfig, s3Config, getAwsConfig, hbeq, hlsb]

/-- Closed instantiation of C10 discharging its hypotheses. -/
theorem sqsConfig_force_production_witness :
    sqsConfig { LOCALSTACK_HOSTNAME := some "localstack", STAGE := some "prod" } =
      { region := "ap-northeast-1", endpoint := none, credentials := none } ∧
    (dynamoDbConfig { LOCALSTACK_HOSTNAME := some "localstack", STAGE := some "prod" }).endpoint.isSome = true := by
  refine ⟨sqsConfig_force_production.1 _,
    (sqsConfig_force_production.2.1
      { LOCALSTACK_HOSTNAME := some "localstack", STAGE := some "prod" }
      (by decide) (by decide)).1⟩

/-- C2: updating a missing id returns null and leaves the world (table and
queue) untouched. -/
theorem updateTask_missing_id (f : Faults) (w : World) (id : String)
    (u : TaskUpdates) (ts mts : String) (h : getTaskById w id = none) :
    updateTask f w id u ts mts = .ok w none := by
  simp [updateTask, h]

/-- Closed instantiation of C2 discharging its hypothesis. -/
theorem updateTask_missing_id_witness :
    updateTask { storeOk := true, sendOk := true } { table := [], queue := [] }
      "t1" { status := some "DONE" } "ts" "ms" =
      .ok { table := [], queue := [] } none :=
  updateTask_missing_id _ _ _ _ _ _ (by decide)

/-- Distinct counter values give distinct generated identifiers. -/
theorem uuidv4_injective {m n : Nat} (h : uuidv4 m = uuidv4 n) : m = n := by
  have h2 := congrArg (fun s => s.data.length) h
  simpa [uuidv4] using h2

/-- C1: updating an existing task with any payload — even one carrying
`id`, `createdAt` and `status` — leaves the stored `id` and `createdAt`
unchanged (they are stripped before persistence), sets `status` to the
payload's value, and refreshes `updatedAt` to the fresh timestamp. -/
theorem updateTask_strips_id_createdAt (f : Faults) (w : World) (id : String)
    (u : TaskUpdates) (ts mts : String) (cur : Item)
    (hget : getTaskById w id = some cur)
    (hs : f.storeOk = true) (hm : f.sendOk = true) :
    ∃ w2 res, updateTask f w id u ts mts = .ok w2 (some res) ∧
      Table.get w2.table id = some res ∧
      res.id = cur.id ∧
      res.createdAt = cur.createdAt ∧
      (∀ s, u.status = some s → res.status = some s) ∧
      res.updatedAt = some ts := by
  have hget2 : w.table.get id = some cur := hget
  have hid : cur.id = id := Table.get_id hget2
  have hresid : (applyUpdates cur u ts).id = id := by
    simp [applyUpdates, hid]
  have hgetput : (w.table.put (applyUpdates cur u ts)).get id =
      some (applyUpdates cur u ts) := by
    have hp := Table.get_put w.table (applyUpdates cur u ts)
    rwa [hresid] at hp
  refine ⟨{ table := w.table.put (applyUpdates cur u ts),
            queue := w.queue ++ [{ taskId := id, action := "UPDATE", timestamp := mts }] },
          applyUpdates cur u ts, ?_, hgetput, by simp [applyUpdates],
          by simp [applyUpdates], ?_, by simp [applyUpdates]⟩
  · unfold updateTask
    rw [hget]
    simp only [hs, if_true, sendTaskMessage, hm]
    unfold dynamoUpdate
    rw [hget2]
    simp [getTaskById, hgetput]
  · intro s hstat
    simp [applyUpdates, hstat]

/-- Closed instantiation of C1 discharging its hypotheses. -/
theorem updateTask_strips_id_createdAt_witness :
    ∃ w2 res,
      updateTask { storeOk := true, sendOk := true }
        { table := [{ id := "t1", title := some "A", status := some "TODO",
                      createdAt := some "c0" }], queue := [] }
        "t1" { id := some "x", createdAt := some "y", status := some "DONE" }
        "ts1" "ms1" = .ok w2 (some res) ∧
      Table.get w2.table "t1" = some res ∧
      res.id = "t1" ∧
      res.createdAt = some "c0" ∧
      (∀ s, ({ id := some "x", createdAt := some "y", status := some "DONE" } :
              TaskUpdates).status = some s → res.status = some s) ∧
      res.updatedAt = some "ts1" :=
  updateTask_strips_id_createdAt _ _ _ _ _ _
    { id := "t1", title := some "A", status := some "TODO", createdAt := some "c0" }
    (by decide) rfl rfl

/-- C3: each mutating operation attempts exactly one queue notification,
issued only after the store write succeeds: on full success the queue grows
by exactly the one message; when the store write rejects, no message is
attempted and the operation fails with the world untouched; when the send
rejects, the operation fails even though the store write has already
happened, and no message is on the queue. -/
theorem mutation_notification_contract (w : World) (seed : Nat)
    (id title ts mts : String) (d : Option String) (u : TaskUpdates)
    (cur : Item) (hget : getTaskById w id = some cur) :
    (∀ f : Faults, f.storeOk = true → f.sendOk = true →
      (createTask f w seed title d ts mts).world.queue =
        w.queue ++ [{ taskId := uuidv4 seed, action := "CREATE", timestamp := mts }] ∧
      (updateTask f w id u ts mts).world.queue =
        w.queue ++ [{ taskId := id, action := "UPDATE", timestamp := mts }] ∧
      (deleteTask f w id mts).world.queue =
        w.queue ++ [{ taskId := id, action := "DELETE", timestamp := mts }]) ∧
    (∀ f : Faults, f.storeOk = false →
      createTask f w seed title d ts mts = .failed w ∧
      updateTask f w id u ts mts = .failed w ∧
      deleteTask f w id mts = .failed w) ∧
    (∀ f : Faults, f.storeOk = true → f.sendOk = false →
      createTask f w seed title d ts mts =
        .failed { table := w.table.put
                    { id := uuidv4 seed, title := some title, description := d,
                      status := some "TODO", createdAt := some ts },
                  queue := w.queue } ∧
      updateTask f w id u ts mts =
        .failed { table := dynamoUpdate w.table id u ts, queue := w.queue } ∧
      deleteTask f w id mts =
        .failed { table := w.table.del id, queue := w.queue }) := by
  refine ⟨?_, ?_, ?_⟩
  · intro f hs hm
    refine ⟨?_, ?_, ?_⟩
    · simp [createTask, hs, sendTaskMessage, hm, OpResult.world]
    · unfold updateTask
      rw [hget]
      simp [hs, sendTaskMessage, hm, OpResult.world]
    · unfold deleteTask
      rw [hget]
      simp [hs, sendTaskMessage, hm, OpResult.world]
  · intro f hs
    refine ⟨?_, ?_, ?_⟩
    · simp [createTask, hs]
    · unfold updateTask
      rw [hget]
      simp [hs]
    · unfold deleteTask
      rw [hget]
      simp [hs]
  · intro f hs hm
    refine ⟨?_, ?_, ?_⟩
    · simp [createTask, hs, sendTaskMessage, hm]
    · unfold updateTask
      rw [hget]
      simp [hs, sendTaskMessage, hm]
    · unfold deleteTask
      rw [hget]
      simp [hs, sendTaskMessage, hm]

/-- Closed instantiation of C3 discharging its hypotheses. -/
theorem mutation_notification_contract_witness :
    (createTask { storeOk := true, sendOk := true }
      { table := [{ id := "t1", title := some "A", status := some "TODO",
                    createdAt := some "c0" }], queue := [] }
      0 "B" none "t" "m").world.queue =
      [{ taskId := uuidv4 0, action := "CREATE", timestamp := "m" }] ∧
    (deleteTask { storeOk := true, sendOk := false }
      { table := [{ id := "t1", title := some "A", status := some "TODO",
                    createdAt := some "c0" }], queue := [] }
      "t1" "m") =
      .failed { table := Table.del
                  [{ id := "t1", title := some "A", status := some "TODO",
                     createdAt := some "c0" }] "t1",
                queue := [] } := by
  have h := mutation_notification_contract
    { table := [{ id := "t1", title := some "A", status := some "TODO",
                  createdAt := some "c0" }], queue := [] }
    0 "t1" "B" "t" "m" none { status := some "DONE" }
    { id := "t1", title := some "A", status := some "TODO", createdAt := some "c0" }
    (by decide)
  exact ⟨(h.1 { storeOk := true, sendOk := true } rfl rfl).1,
         (h.2.2 { storeOk := true, sendOk := false } rfl rfl).2.2⟩

/-- C4: creating a task from a valid non-empty title yields a task with a
fresh id (unique across calls with distinct generator states), status
`TODO` and `createdAt` set, persists exactly the returned record, and
appends one `CREATE` message; the calling handler rejects a missing body or
a non-truthy title with a 400 error before the service runs. -/
theorem createTask_valid (f : Faults) (w : World) (seed : Nat) (title : String)
    (d : Option String) (ts mts : String)
    (hs : f.storeOk = true) (hm : f.sendOk = true) (_htitle : title ≠ "") :
    (∃ w2 task, createTask f w seed title d ts mts = .ok w2 task ∧
      task.id = uuidv4 seed ∧
      (∀ seed2 : Nat, seed2 ≠ seed → uuidv4 seed2 ≠ task.id) ∧
      task.status = some "TODO" ∧
      task.createdAt = some ts ∧
      task.title = some title ∧
      Table.get w2.table task.id = some task ∧
      w2.queue = w.queue ++ [{ taskId := task.id, action := "CREATE", timestamp := mts }]) ∧
    (∀ b : CreateBody, truthy b.title = false →
      Tasks.create f w seed (some b) ts mts =
        (errorResponse "タイトルは必須です" 400, w)) ∧
    Tasks.create f w seed none ts mts =
      (errorResponse "リクエストボディがありません" 400, w) := by
  refine ⟨?_, ?_, rfl⟩
  · refine ⟨{ table := w.table.put
                { id := uuidv4 seed, title := some title, description := d,
                  status := some "TODO", createdAt := some ts },
              queue := w.queue ++ [{ taskId := uuidv4 seed, action := "CREATE",
                                     timestamp := mts }] },
            { id := uuidv4 seed, title := some title, description := d,
              status := some "TODO", createdAt := some ts },
            ?_, rfl, ?_, rfl, rfl, rfl, Table.get_put _ _, rfl⟩
    · simp [createTask, hs, sendTaskMessage, hm]
    · intro seed2 hne heq
      exact hne (uuidv4_injective heq)
  · intro b hb
    simp [Tasks.create, hb]

/-- Closed instantiation of C4 discharging its hypotheses. -/
theorem createTask_valid_witness :
    (∃ w2 task, createTask { storeOk := true, sendOk := true }
        { table := [], queue := [] } 0 "A" none "t0" "m0" = .ok w2 task ∧
      task.id = uuidv4 0 ∧
      (∀ seed2 : Nat, seed2 ≠ 0 → uuidv4 seed2 ≠ task.id) ∧
      task.status = some "TODO" ∧
      task.createdAt = some "t0" ∧
      task.title = some "A" ∧
      Table.get w2.table task.id = some task ∧
      w2.queue = [{ taskId := task.id, action := "CREATE", timestamp := "m0" }]) ∧
    (∀ b : CreateBody, truthy b.title = false →
      Tasks.create { storeOk := true, sendOk := true } { table := [], queue := [] }
        0 (some b) "t0" "m0" = (errorResponse "タイトルは必須です" 400,
                                { table := [], queue := [] })) ∧
    Tasks.create { storeOk := true, sendOk := true } { table := [], queue := [] }
      0 none "t0" "m0" = (errorResponse "リクエストボディがありません" 400,
                          { table := [], queue := [] }) :=
  createTask_valid _ _ _ _ _ _ _ rfl rfl (by decide)

/-- C5: deleting an existing id removes the record (a subsequent read
returns not-found), appends exactly one `DELETE` message and returns true;
deleting a missing id returns false and leaves the world untouched. -/
theorem deleteTask_spec (f : Faults) (w : World) (id mts : String)
    (hs : f.storeOk = true) (hm : f.sendOk = true) :
    (∀ cur : Item, getTaskById w id = some cur →
      ∃ w2, deleteTask f w id mts = .ok w2 true ∧
        getTaskById w2 id = none ∧
        w2.queue = w.queue ++ [{ taskId := id, action := "DELETE", timestamp := mts }]) ∧
    (getTaskById w id = none → deleteTask f w id mts = .ok w false) := by
  constructor
  · intro cur hget
    refine ⟨{ table := w.table.del id,
              queue := w.queue ++ [{ taskId := id, action := "DELETE",
                                     timestamp := mts }] }, ?_,
            Table.get_del w.table id, rfl⟩
    unfold deleteTask
    rw [hget]
    simp [hs, sendTaskMessage, hm]
  · intro h
    simp [deleteTask, h]

/-- Closed instantiation of C5 discharging its hypotheses. -/
theorem deleteTask_spec_witness :
    (∃ w2, deleteTask { storeOk := true, sendOk := true }
        { table := [{ id := "t1", title := some "A", status := some "TODO",
                      createdAt := some "c0" }], queue := [] } "t1" "m" =
        .ok w2 true ∧
      getTaskById w2 "t1" = none ∧
      w2.queue = [{ taskId := "t1", action := "DELETE", timestamp := "m" }]) ∧
    deleteTask { storeOk := true, sendOk := true }
      { table := [{ id := "t1", title := some "A", status := some "TODO",
                    createdAt := some "c0" }], queue := [] } "t9" "m" =
      .ok { table := [{ id := "t1", title := some "A", status := some "TODO",
                        createdAt := some "c0" }], queue := [] } false := by
  have h := deleteTask_spec { storeOk := true, sendOk := true }
    { table := [{ id := "t1", title := some "A", status := some "TODO",
                  createdAt := some "c0" }], queue := [] } "t1" "m" rfl rfl
  have h9 := deleteTask_spec { storeOk := true, sendOk := true }
    { table := [{ id := "t1", title := some "A", status := some "TODO",
                  createdAt := some "c0" }], queue := [] } "t9" "m" rfl rfl
  exact ⟨h.1 { id := "t1", title := some "A", status := some "TODO",
               createdAt := some "c0" } (by decide), h9.2 (by decide)⟩

/-- A success envelope satisfies the contract for the status codes the
handlers use. -/
theorem isEnvelope_success (j : Json) (c : Nat)
    (hc : c = 200 ∨ c = 201 ∨ c = 400 ∨ c = 404 ∨ c = 500) :
    isEnvelope (successResponse j c) := by
  refine ⟨by simp [successResponse], by simp [successResponse], ?_, ⟨j, rfl⟩⟩
  simpa [successResponse] using hc

/-- An error envelope satisfies the contract for the status codes the
handlers use. -/
theorem isEnvelope_error (m : String) (c : Nat)
    (hc : c = 200 ∨ c = 201 ∨ c = 400 ∨ c = 404 ∨ c = 500) :
    isEnvelope (errorResponse m c) := by
  refine ⟨by simp [errorResponse], by simp [errorResponse], ?_,
    ⟨Json.obj [("message", Json.str m)], rfl⟩⟩
  simpa [errorResponse] using hc

/-- C8: every handler result, success or error, is an envelope with a
JSON-serialized body, a `Content-Type: application/json` header, the
permissive cross-origin header, and a status code in
200/201/400/404/500. -/
theorem handlers_always_envelope :
    (∀ f w seed body ts mts, isEnvelope (Tasks.create f w seed body ts mts).1) ∧
    (∀ w taskId, isEnvelope (Tasks.get w taskId)) ∧
    (∀ w, isEnvelope (Tasks.list w)) ∧
    (∀ f w taskId body ts mts, isEnvelope (Tasks.update f w taskId body ts mts).1) ∧
    (∀ f w taskId mts, isEnvelope (Tasks.remove f w taskId mts).1) ∧
    (∀ env w seed body ts, isEnvelope (Files.upload env w seed body ts).1) ∧
    (∀ env w fileId, isEnvelope (Files.get env w fileId)) ∧
    (∀ f w fileId, isEnvelope (Files.remove f w fileId).1) ∧
    (∀ env services ok time requestId path method,
      isEnvelope (Api.handler env services ok time requestId path method)) := by
  refine ⟨?_, ?_, ?_, ?_, ?_, ?_, ?_, ?_, ?_⟩
  · intro f w seed body ts mts
    unfold Tasks.create
    rcases body with _ | b
    · exact isEnvelope_error _ _ (by decide)
    · dsimp only
      repeat' split
      all_goals exact isEnvelope_success _ _ (by decide)
  · intro w taskId
    unfold Tasks.get
    repeat' split
    all_goals exact isEnvelope_success _ _ (by decide)
  · intro w
    exact isEnvelope_success _ _ (by decide)
  · intro f w taskId body ts mts
    unfold Tasks.update
    dsimp only
    repeat' split
    all_goals exact isEnvelope_success _ _ (by decide)
  · intro f w taskId mts
    unfold Tasks.remove
    repeat' split
    all_goals exact isEnvelope_success _ _ (by decide)
  · intro env w seed body ts
    unfold Files.upload
    rcases body with _ | b
    · exact isEnvelope_error _ _ (by decide)
    · dsimp only
      repeat' split
      all_goals exact isEnvelope_success _ _ (by decide)
  · intro env w fileId
    unfold Files.get
    repeat' split
    all_goals exact isEnvelope_success _ _ (by decide)
  · intro f w fileId
    unfold Files.remove
    dsimp only
    repeat' split
    all_goals exact isEnvelope_success _ _ (by decide)
  · intro env services ok time requestId path method
    unfold Api.handler
    split
    · exact isEnvelope_success _ _ (by decide)
    · exact isEnvelope_error _ _ (by decide)

/-- C7 counterexample: with `NODE_ENV=local` and `STAGE` unset the
environment resolver yields stage `local`, yet `saveFileMetadata` builds
the public S3 URL form, not the LocalStack form — the URL choice tests the
raw `STAGE` variable, not the resolved stage. -/
theorem saveFileMetadata_url_ignores_resolver :
    stage { NODE_ENV := some "local" } = "local" ∧
    (saveFileMetadata { NODE_ENV := some "local" } { table := [], queue := [] }
        "f1" "a.txt" "text/plain" 7 "t0").2.url =
      "https://files-bucket-local-xyz123.s3.amazonaws.com/f1/a.txt" ∧
    (saveFileMetadata { NODE_ENV := some "local" } { table := [], queue := [] }
        "f1" "a.txt" "text/plain" 7 "t0").2.url ≠
      "http://localhost:4566/files-bucket-local-xyz123/f1/a.txt" := by
  refine ⟨by decide, by decide, by decide⟩

/-- C7 (amended): `saveFileMetadata` persists, in the same table as task
records, a record tagged `type: FILE` whose stored `url` equals the
returned one; the URL takes the LocalStack form exactly when the raw
`STAGE` environment variable equals `local` (not whenever the resolved
stage is `local`), and the public S3 form otherwise. -/
theorem saveFileMetadata_spec (env : Env) (w : World)
    (fileId filename contentType ts : String) (size : Nat) :
    (∃ it, Table.get (saveFileMetadata env w fileId filename contentType size ts).1.table
        fileId = some it ∧
      it.type = some "FILE" ∧
      it.url = some (saveFileMetadata env w fileId filename contentType size ts).2.url) ∧
    (env.STAGE = some "local" →
      (saveFileMetadata env w fileId filename contentType size ts).2.url =
        "http://localhost:4566/" ++ FILES_BUCKET env ++ "/" ++ fileId ++ "/" ++ filename) ∧
    (env.STAGE ≠ some "local" →
      (saveFileMetadata env w fileId filename contentType size ts).2.url =
        "https://" ++ FILES_BUCKET env ++ ".s3.amazonaws.com/" ++ fileId ++ "/" ++ filename) := by
  refine ⟨⟨_, Table.get_put _ _, rfl, rfl⟩, ?_, ?_⟩
  · intro h
    simp [saveFileMetadata, h]
  · intro h
    simp [saveFileMetadata, h]

/-- Closed instantiation of C7's amended theorem discharging its
hypotheses. -/
theorem saveFileMetadata_spec_witness :
    (saveFileMetadata { STAGE := some "local" } { table := [], queue := [] }
        "f1" "a.txt" "text/plain" 7 "t0").2.url =
      "http://localhost:4566/" ++ FILES_BUCKET { STAGE := some "local" } ++
        "/" ++ "f1" ++ "/" ++ "a.txt" ∧
    (saveFileMetadata { STAGE := some "prod" } { table := [], queue := [] }
        "f1" "a.txt" "text/plain" 7 "t0").2.url =
      "https://" ++ FILES_BUCKET { STAGE := some "prod" } ++
        ".s3.amazonaws.com/" ++ "f1" ++ "/" ++ "a.txt" :=
  ⟨(saveFileMetadata_spec { STAGE := some "local" } { table := [], queue := [] }
      "f1" "a.txt" "text/plain" "t0" 7).2.1 rfl,
   (saveFileMetadata_spec { STAGE := some "prod" } { table := [], queue := [] }
      "f1" "a.txt" "text/plain" "t0" 7).2.2 (by decide)⟩

/-- A file-tagged item put into the table is read back by
`getFileMetadata` as the corresponding metadata record. -/
theorem getFileMetadata_put_file (w : World) (it : Item)
    (hty : it.type = some "FILE") :
    getFileMetadata { w with table := w.table.put it } it.id =
      some { id := it.id, filename := it.filename.getD "",
             contentType := it.contentType.getD "", size := it.size.getD 0,
             uploadedAt := it.uploadedAt.getD "", url := it.url.getD "" } := by
  unfold getFileMetadata
  rw [show ({ w with table := w.table.put it } : World).table.get it.id = some it
        from Table.get_put _ _]
  simp [hty]

/-- C9: `getTaskById` returns whatever the store holds under the key with
no check of the `FILE` type tag — after `saveFileMetadata`, reading the
file id through the task service yields the file-tagged record rather than
not-found — while `getFileMetadata` filters defensively and returns null
for any record not tagged `FILE`. -/
theorem getTaskById_ignores_type_tag (env : Env) (w : World)
    (fileId filename contentType ts : String) (size : Nat) :
    (∃ it, getTaskById (saveFileMetadata env w fileId filename contentType size ts).1
        fileId = some it ∧
      it.type = some "FILE" ∧
      it.url = some (saveFileMetadata env w fileId filename contentType size ts).2.url) ∧
    getFileMetadata (saveFileMetadata env w fileId filename contentType size ts).1
        fileId =
      some (saveFileMetadata env w fileId filename contentType size ts).2 ∧
    (∀ (v : World) (id2 : String) (it : Item), Table.get v.table id2 = some it →
      it.type ≠ some "FILE" → getFileMetadata v id2 = none) := by
  refine ⟨⟨_, Table.get_put _ _, rfl, rfl⟩, ?_, ?_⟩
  · exact getFileMetadata_put_file w
      { id := fileId, type := some "FILE", filename := some filename,
        contentType := some contentType, size := some size,
        uploadedAt := some ts,
        url := some (if env.STAGE == some "local" then
          "http://localhost:4566/" ++ FILES_BUCKET env ++ "/" ++ fileId ++ "/" ++ filename
        else
          "https://" ++ FILES_BUCKET env ++ ".s3.amazonaws.com/" ++ fileId ++ "/" ++ filename) }
      rfl
  · intro v id2 it hget hty
    unfold getFileMetadata
    rw [hget]
    have hb : (it.type == some "FILE") = false := beq_eq_false_iff_ne.mpr hty
    simp [hb]

/-- Closed instantiation of C9 discharging its hypotheses. -/
theorem getTaskById_ignores_type_tag_witness :
    (∃ it, getTaskById (saveFileMetadata { STAGE := some "local" }
        { table := [], queue := [] } "f1" "a.txt" "text/plain" 7 "t0").1
        "f1" = some it ∧
      it.type = some "FILE" ∧
      it.url = some (saveFileMetadata { STAGE := some "local" }
        { table := [], queue := [] } "f1" "a.txt" "text/plain" 7 "t0").2.url) ∧
    getFileMetadata (saveFileMetadata { STAGE := some "local" }
        { table := [], queue := [] } "f1" "a.txt" "text/plain" 7 "t0").1 "f1" =
      some (saveFileMetadata { STAGE := some "local" }
        { table := [], queue := [] } "f1" "a.txt" "text/plain" 7 "t0").2 ∧
    (∀ (v : World) (id2 : String) (it : Item), Table.get v.table id2 = some it →
      it.type ≠ some "FILE" → getFileMetadata v id2 = none) :=
  getTaskById_ignores_type_tag { STAGE := some "local" }
    { table := [], queue := [] } "f1" "a.txt" "text/plain" "t0" 7

end LocalStackExample
